import Mathlib

/-!
Verification of the Cynthion/Moondancer SoC build script
(`cynthion/python/src/gateware/soc/top.py`).

The script is declarative wiring: it registers peripherals at fixed base
addresses on a `LunaSoC`, binds platform resources (with try/except fallback
for two USB PHYs and an optional user button), drives synthesis, and emits
four derived artifact files.  We embed:

* the peripheral registrations performed by `MoondancerSoc.__init__`
  (name, explicit base address if any, and the `as_submodule` flag as
  written at the call site);
* the resource-request behaviour of `MoondancerSoc.elaborate`, with
  `platform.request` modelled as an abstract function from a resource
  name and number to either a bound resource or a raised error (errors
  are carried as strings standing for arbitrary Python exceptions, since
  the script's `except:` clauses are bare);
* the artifact-emission phase of `__main__` as writes to an abstract
  file system, with the generator bodies (which live in the external
  `luna_soc` package) modelled from the spec as pure functions of the
  finalized design descriptor;
* the control flow of `__main__` as a trace of observable effects.
-/

namespace Moondancer

/-- One `soc.add_peripheral(...)` call from `MoondancerSoc.__init__`:
the peripheral's name, the explicit `addr=` argument when one is passed,
and the explicit `as_submodule=` argument when one is passed (`none`
means the keyword was omitted at the call site). -/
structure PeripheralReg where
  name : String
  addr : Option Nat
  asSubmodule : Option Bool
deriving DecidableEq, Repr

/-- The peripheral registrations of `MoondancerSoc.__init__`, in call
order (top.py lines 57-93).  Peripherals added internally by
`add_bios_and_peripherals` live in the external framework and are not
registered here with explicit addresses. -/
def peripheralRegs : List PeripheralReg := [
  ⟨"leds",            some 0xf0001000, none⟩,
  ⟨"gpioa",           some 0xf0002000, none⟩,
  ⟨"gpiob",           some 0xf0002100, none⟩,
  ⟨"usb0",            some 0xf0003000, none⟩,
  ⟨"usb0_ep_control", none,            some false⟩,
  ⟨"usb0_ep_in",      none,            some false⟩,
  ⟨"usb0_ep_out",     none,            some false⟩,
  ⟨"usb1",            some 0xf0004000, none⟩,
  ⟨"usb1_ep_control", none,            some false⟩,
  ⟨"usb1_ep_in",      none,            some false⟩,
  ⟨"usb1_ep_out",     none,            some false⟩,
  ⟨"usb2",            some 0xf0005000, none⟩,
  ⟨"usb2_ep_control", none,            some false⟩,
  ⟨"usb2_ep_in",      none,            some false⟩,
  ⟨"usb2_ep_out",     none,            some false⟩]

/-- The nine optional eptri endpoint peripherals
(`usbN_ep_control`, `usbN_ep_in`, `usbN_ep_out` for N in 0, 1, 2). -/
def eptriNames : List String := [
  "usb0_ep_control", "usb0_ep_in", "usb0_ep_out",
  "usb1_ep_control", "usb1_ep_in", "usb1_ep_out",
  "usb2_ep_control", "usb2_ep_in", "usb2_ep_out"]

/-- A register address window: peripheral name, base address, and the
size in bytes occupied by its registers. -/
structure Window where
  name : String
  base : Nat
  size : Nat
deriving DecidableEq, Repr

/-- Modelled from the spec: the register widths of the peripherals live
in the external `luna_soc` CSR implementations; the spec states that
base addresses are aligned "to a fixed page granularity (here, 0x1000 or
0x100 for tightly packed units)", the tightly packed units being the two
GPIO peripherals spaced 0x100 apart.  This bound is the largest register
window each peripheral may occupy under that granularity. -/
def specWindowBound (n : String) : Nat :=
  if n == "gpioa" || n == "gpiob" then 0x100 else 0x1000

/-- The address windows of the peripherals registered with an explicit
base address, for a given assignment `w` of register-window sizes. -/
def addressedWindows (w : String → Nat) : List Window :=
  peripheralRegs.filterMap fun r =>
    match r.addr with
    | some a => some ⟨r.name, a, w r.name⟩
    | none => none

/-- Two windows occupy disjoint address ranges. -/
def windowsDisjoint (x y : Window) : Prop :=
  x.base + x.size ≤ y.base ∨ y.base + y.size ≤ x.base

/-- A bound physical resource, identified by the resource name and
number passed to `platform.request` (amaranth returns the pin record of
the resource so named). -/
abbrev Phy := String × Nat

/-- A platform, observed through its `request` method: requesting a
resource name and number either returns the bound resource or raises an
exception.  The error value is a string standing for an arbitrary Python
exception (`except:` in the script is bare, so the exception's type is
never inspected). -/
structure Platform where
  request : String → Nat → Except String Phy

/-- The standard platform behaviour: `request` returns the resource so
named when the platform has it, and raises amaranth's `ResourceError`
when it does not. -/
def Platform.ofAvail (avail : String → Nat → Bool) : Platform :=
  ⟨fun n i => if avail n i then .ok (n, i) else .error "ResourceError"⟩

/-- The try/except pattern used twice in `MoondancerSoc.elaborate`
(top.py lines 174-177 and 186-189): request the preferred resource; on
any raised exception, request the alternate instead.  A failure of the
alternate is not handled. -/
def requestPhyWithFallback (p : Platform) (preferred alternate : String) :
    Except String Phy :=
  match p.request preferred 0 with
  | .ok r => .ok r
  | .error _ => p.request alternate 0

/-- The observable outcome of a successful `MoondancerSoc.elaborate`:
the warnings logged, whether the cpu external reset was wired to the
user button, and the bus binding of each of the three `USBDevice`
instances (logical device name, physical resource bound). -/
structure ElabResult where
  warnings : List String
  cpuResetWired : Bool
  bindings : List (String × Phy)
deriving DecidableEq, Repr

/-- The resource-request behaviour of `MoondancerSoc.elaborate` (top.py
lines 95-197): the `button_user` request is wrapped in try/except (a
failure logs a warning and skips the reset wiring); the `user_pmod`,
`uart` 1, `jtag` and `target_phy` requests are unguarded, so a failure
propagates; `aux_phy` and `control_phy` fall back to `host_phy` and
`sideband_phy` respectively.  Pure wiring statements (clock domains,
combinational assignments) have no request behaviour and are elided. -/
def elaborate (p : Platform) : Except String ElabResult := do
  let buttonOutcome :=
    match p.request "button_user" 0 with
    | .ok _ => (true, ([] : List String))
    | .error _ =>
        (false, ["Platform does not support a user button for cpu reset"])
  let _pmoda ← p.request "user_pmod" 0
  let _uart1 ← p.request "uart" 1
  let _jtag0 ← p.request "jtag" 0
  let ulpi0 ← p.request "target_phy" 0
  let ulpi1 ← requestPhyWithFallback p "aux_phy" "host_phy"
  let ulpi2 ← requestPhyWithFallback p "control_phy" "sideband_phy"
  return ⟨buttonOutcome.2, buttonOutcome.1,
    [("usb0_device", ulpi0), ("usb1_device", ulpi1), ("usb2_device", ulpi2)]⟩

/-- Modelled from the spec: the four artifact emission functions
(`Generate.c_header`, `Generate.ld_script`, `Generate.svd`,
`Generate.memory_x`) live in the external `luna_soc.generate` package;
per spec section 4.3 each is "taking the finalized design descriptor and
an open output sink", i.e. a pure function of the descriptor (plus, for
the C header, the platform name passed at the call site). -/
structure Generators (Desc : Type) where
  c_header : Desc → String → String
  ld_script : Desc → String
  svd : Desc → String
  memory_x : Desc → String

/-- A file system, as a map from path to file content. -/
def FS : Type := String → Option String

/-- Writing a file in mode "w": the previous content of the path, if
any, is discarded and replaced. -/
def fsWrite (fs : FS) (path content : String) : FS :=
  fun q => if q = path then some content else fs q

/-- The four artifact files written by `__main__` (top.py lines
258-288), in write order. -/
def artifactPaths : List String :=
  ["build/genc/resources.h", "build/genc/soc.ld",
   "build/gensvd/lunasoc.svd", "build/genrust/memory.x"]

/-- The artifact-emission phase of `__main__`: each generator is run
exactly once, its output written (mode "w") to its artifact path. -/
def artifactPhase {Desc : Type} (g : Generators Desc) (d : Desc)
    (platformName : String) (fs : FS) : FS :=
  fsWrite (fsWrite (fsWrite (fsWrite fs
    "build/genc/resources.h" (g.c_header d platformName))
    "build/genc/soc.ld" (g.ld_script d))
    "build/gensvd/lunasoc.svd" (g.svd d))
    "build/genrust/memory.x" (g.memory_x d)

/-- An observable effect of the `__main__` driver.  `buildBios` and
`synthesize` stand for the opaque external build calls
(`design.soc.build` and `platform.build`); `writeArtifact` is one of the
script's own artifact file writes. -/
inductive Effect where
  | logDebug : String → Effect
  | logInfo : String → Effect
  | logWarn : String → Effect
  | logError : String → Effect
  | mkdir : String → Effect
  | buildBios : Effect
  | synthesize : Effect
  | writeArtifact : String → Effect
  | printMsg : String → Effect
  | exitCode : Nat → Effect
deriving DecidableEq, BEq, Repr

/-- The directory whose absence triggers the litex build fix (top.py
lines 234-238). -/
def thirdpartyDir : String := "build/lambdasoc.soc.cpu/bios/3rdparty/litex"

/-- The three output directories created on demand for the artifact
files. -/
def artifactDirs : List String := ["build/genc", "build/gensvd", "build/genrust"]

/-- The effect trace of `__main__` (top.py lines 209-290).  `plat` is
the platform returned by `get_appropriate_platform` (`none` when no
supported platform is detected), carried as its display name; `ex`
tells, per path, whether `os.path.exists` holds at process start.  The
clock-frequency computation and the resource-introspection logging are
elided (they produce no effect the claims mention beyond logs). -/
def mainTrace (plat : Option String) (ex : String → Bool) : List Effect :=
  match plat with
  | none => [.logError "Failed to identify a supported platform", .exitCode 1]
  | some name =>
    [.logInfo ("Building for " ++ name)] ++
    (if ex thirdpartyDir then [] else
      [.logInfo ("Fixing build, creating output directory: " ++ thirdpartyDir),
       .mkdir thirdpartyDir]) ++
    [.logInfo "Building bios", .buildBios,
     .logInfo "Building soc", .synthesize] ++
    (if ex "build/genc" then [] else [.mkdir "build/genc"]) ++
    [.logInfo "Generating c-header and ld-script: build/genc",
     .writeArtifact "build/genc/resources.h",
     .writeArtifact "build/genc/soc.ld"] ++
    (if ex "build/gensvd" then [] else [.mkdir "build/gensvd"]) ++
    [.logInfo "Generating svd file: build/gensvd",
     .writeArtifact "build/gensvd/lunasoc.svd"] ++
    (if ex "build/genrust" then [] else [.mkdir "build/genrust"]) ++
    [.logInfo "Generating memory.x file: build/genrust",
     .writeArtifact "build/genrust/memory.x"] ++
    [.printMsg "Build completed. Use 'make load' to load bitstream to device."]

/-- The artifact paths written by a trace, in order. -/
def artifactWrites (t : List Effect) : List String :=
  t.filterMap fun e =>
    match e with
    | .writeArtifact p => some p
    | _ => none

/-- No artifact write occurs before the synthesis step in the trace. -/
def noWriteBeforeSynth (t : List Effect) : Bool :=
  (t.takeWhile fun e => e != Effect.synthesize).all fun e =>
    match e with
    | .writeArtifact _ => false
    | _ => true

/-- Pairwise over a six-element list, split into its fifteen pairs. -/
theorem pairwise_six {α : Type} {R : α → α → Prop} {a b c d e f : α}
    (h1 : R a b) (h2 : R a c) (h3 : R a d) (h4 : R a e) (h5 : R a f)
    (h6 : R b c) (h7 : R b d) (h8 : R b e) (h9 : R b f)
    (h10 : R c d) (h11 : R c e) (h12 : R c f)
    (h13 : R d e) (h14 : R d f) (h15 : R e f) :
    ([a, b, c, d, e, f] : List α).Pairwise R := by
  refine .cons ?_ (.cons ?_ (.cons ?_ (.cons ?_ (.cons ?_ (.cons ?_ .nil)))))
  all_goals intro x hx
  all_goals simp only [List.mem_cons, List.not_mem_nil, or_false] at hx
  · rcases hx with rfl | rfl | rfl | rfl | rfl <;> assumption
  · rcases hx with rfl | rfl | rfl | rfl <;> assumption
  · rcases hx with rfl | rfl | rfl <;> assumption
  · rcases hx with rfl | rfl <;> assumption
  · rcases hx with rfl
    assumption

/-- C1: for every assignment of register-window sizes within the spec's
page granularity (0x1000, or 0x100 for the tightly packed GPIO units),
the address ranges of the six peripherals registered with an explicit
base address (leds at 0xf0001000, gpioa at 0xf0002000, gpiob at
0xf0002100, usb0 at 0xf0003000, usb1 at 0xf0004000, usb2 at 0xf0005000)
are pairwise non-overlapping, and every base address is aligned to
0x1000 or 0x100. -/
theorem c1_address_windows_disjoint (w : String → Nat)
    (h : ∀ n, w n ≤ specWindowBound n) :
    (addressedWindows w).Pairwise windowsDisjoint ∧
    ∀ win ∈ addressedWindows w,
      win.base % 0x1000 = 0 ∨ win.base % 0x100 = 0 := by
  have hleds : w "leds" ≤ 0x1000 := le_trans (h "leds") (by decide)
  have hga : w "gpioa" ≤ 0x100 := le_trans (h "gpioa") (by decide)
  have hgb : w "gpiob" ≤ 0x100 := le_trans (h "gpiob") (by decide)
  have h0 : w "usb0" ≤ 0x1000 := le_trans (h "usb0") (by decide)
  have h1 : w "usb1" ≤ 0x1000 := le_trans (h "usb1") (by decide)
  have h2 : w "usb2" ≤ 0x1000 := le_trans (h "usb2") (by decide)
  have hw : addressedWindows w = [
      ⟨"leds", 0xf0001000, w "leds"⟩, ⟨"gpioa", 0xf0002000, w "gpioa"⟩,
      ⟨"gpiob", 0xf0002100, w "gpiob"⟩, ⟨"usb0", 0xf0003000, w "usb0"⟩,
      ⟨"usb1", 0xf0004000, w "usb1"⟩, ⟨"usb2", 0xf0005000, w "usb2"⟩] := rfl
  rw [hw]
  constructor
  · apply pairwise_six <;> simp only [windowsDisjoint] <;> omega
  · intro win hwin
    simp only [List.mem_cons, List.not_mem_nil, or_false] at hwin
    rcases hwin with rfl | rfl | rfl | rfl | rfl | rfl <;> norm_num

/-- Witness for C1 at the spec's own window bounds. -/
theorem c1_address_windows_disjoint_witness :
    (addressedWindows specWindowBound).Pairwise windowsDisjoint ∧
    ∀ win ∈ addressedWindows specWindowBound,
      win.base % 0x1000 = 0 ∨ win.base % 0x100 = 0 :=
  c1_address_windows_disjoint specWindowBound (fun _ => Nat.le_refl _)

/-- C5: every optional eptri endpoint peripheral (usbN_ep_control,
usbN_ep_in, usbN_ep_out for N in 0, 1, 2) is registered, and every such
registration passes `as_submodule=False` explicitly and no `addr=`
argument, so no independent base address of its own. -/
theorem c5_eptri_no_own_address :
    (∀ n ∈ eptriNames, ∃ r ∈ peripheralRegs,
      r.name = n ∧ r.addr = none ∧ r.asSubmodule = some false) ∧
    (∀ r ∈ peripheralRegs, r.name ∈ eptriNames →
      r.addr = none ∧ r.asSubmodule = some false) := by
  decide

/-- Witness for C5 at the first eptri endpoint. -/
theorem c5_eptri_no_own_address_witness :
    ∃ r ∈ peripheralRegs, r.name = "usb0_ep_control" ∧
      r.addr = none ∧ r.asSubmodule = some false :=
  c5_eptri_no_own_address.1 "usb0_ep_control" (by decide)

/-- C2: the fallback chain returns the first available resource in
declared order — the preferred resource's binding when its request
succeeds, otherwise the alternate's; and when the preferred and the
alternate both fail, the alternate's failure propagates to the caller. -/
theorem c2_fallback_first_available (p : Platform) (preferred alternate : String) :
    (∀ r, p.request preferred 0 = .ok r →
      requestPhyWithFallback p preferred alternate = .ok r) ∧
    (∀ e, p.request preferred 0 = .error e →
      requestPhyWithFallback p preferred alternate = p.request alternate 0) ∧
    (∀ e e2, p.request preferred 0 = .error e → p.request alternate 0 = .error e2 →
      requestPhyWithFallback p preferred alternate = .error e2) := by
  refine ⟨?_, ?_, ?_⟩ <;> intros <;> simp [requestPhyWithFallback, *]

/-- Witness for C2 on a platform that lacks aux_phy but has host_phy. -/
theorem c2_fallback_first_available_witness :
    requestPhyWithFallback (Platform.ofAvail fun n _ => !(n == "aux_phy"))
      "aux_phy" "host_phy" = .ok ("host_phy", 0) :=
  ((c2_fallback_first_available (Platform.ofAvail fun n _ => !(n == "aux_phy"))
    "aux_phy" "host_phy").2.1 "ResourceError" rfl).trans rfl

/-- C9: the fallback handlers use bare except clauses: whatever error
value the preferred request raises — not only amaranth's ResourceError —
the handler discards it and requests the alternate, so the outcome is
the alternate's outcome and the original error is not observable. -/
theorem c9_bare_except_catches_all (p : Platform) (e : String) :
    (p.request "aux_phy" 0 = .error e →
      requestPhyWithFallback p "aux_phy" "host_phy" = p.request "host_phy" 0) ∧
    (p.request "control_phy" 0 = .error e →
      requestPhyWithFallback p "control_phy" "sideband_phy" =
        p.request "sideband_phy" 0) := by
  constructor <;> intro h <;> simp [requestPhyWithFallback, h]

/-- A platform whose aux_phy and control_phy requests raise an error
unrelated to resource absence. -/
def faultyPlatform : Platform :=
  ⟨fun n i =>
    if n == "aux_phy" || n == "control_phy" then .error "AssertionError"
    else .ok (n, i)⟩

/-- Witness for C9 on a platform raising an AssertionError. -/
theorem c9_bare_except_catches_all_witness :
    requestPhyWithFallback faultyPlatform "aux_phy" "host_phy" =
      faultyPlatform.request "host_phy" 0 :=
  (c9_bare_except_catches_all faultyPlatform "AssertionError").1 rfl

/-- C3: when every resource but the user button is available, elaborate
succeeds, logging the warning and leaving the cpu reset unwired; when
the mandatory target_phy is missing, elaborate fails with the raised
error regardless of the button's availability. -/
theorem c3_optional_button_mandatory_phy (p : Platform) (e : String)
    (r1 r2 r3 r4 u1 u2 : Phy) :
    (p.request "button_user" 0 = .error e →
     p.request "user_pmod" 0 = .ok r1 →
     p.request "uart" 1 = .ok r2 →
     p.request "jtag" 0 = .ok r3 →
     p.request "target_phy" 0 = .ok r4 →
     requestPhyWithFallback p "aux_phy" "host_phy" = .ok u1 →
     requestPhyWithFallback p "control_phy" "sideband_phy" = .ok u2 →
     elaborate p = .ok ⟨["Platform does not support a user button for cpu reset"],
       false,
       [("usb0_device", r4), ("usb1_device", u1), ("usb2_device", u2)]⟩) ∧
    (p.request "user_pmod" 0 = .ok r1 →
     p.request "uart" 1 = .ok r2 →
     p.request "jtag" 0 = .ok r3 →
     p.request "target_phy" 0 = .error e →
     elaborate p = .error e) := by
  constructor
  · intro hb h1 h2 h3 h4 h5 h6
    simp [elaborate, Bind.bind, Except.bind, Pure.pure, Except.pure, hb, h1, h2, h3, h4, h5, h6]
  · intro h1 h2 h3 h4
    cases hb : p.request "button_user" 0 <;>
      simp [elaborate, Bind.bind, Except.bind, Pure.pure, Except.pure, hb, h1, h2, h3, h4]

/-- Witness for C3: a platform lacking only the button elaborates with a
warning; a platform lacking only target_phy fails to elaborate. -/
theorem c3_optional_button_mandatory_phy_witness :
    elaborate (Platform.ofAvail fun n _ => !(n == "button_user")) =
      .ok ⟨["Platform does not support a user button for cpu reset"], false,
        [("usb0_device", ("target_phy", 0)), ("usb1_device", ("aux_phy", 0)),
         ("usb2_device", ("control_phy", 0))]⟩ ∧
    elaborate (Platform.ofAvail fun n _ => !(n == "target_phy")) =
      .error "ResourceError" :=
  ⟨(c3_optional_button_mandatory_phy
      (Platform.ofAvail fun n _ => !(n == "button_user")) "ResourceError"
      ("user_pmod", 0) ("uart", 1) ("jtag", 0) ("target_phy", 0)
      ("aux_phy", 0) ("control_phy", 0)).1 rfl rfl rfl rfl rfl rfl rfl,
   (c3_optional_button_mandatory_phy
      (Platform.ofAvail fun n _ => !(n == "target_phy")) "ResourceError"
      ("user_pmod", 0) ("uart", 1) ("jtag", 0) ("target_phy", 0)
      ("aux_phy", 0) ("control_phy", 0)).2 rfl rfl rfl rfl⟩

/-- C4: on a platform where the aux_phy request fails but host_phy is
available (all mandatory resources present), elaborate succeeds and its
result binds usb1's device to the host_phy resource. -/
theorem c4_usb1_binds_host_phy (avail : String → Nat → Bool)
    (haux : avail "aux_phy" 0 = false) (hhost : avail "host_phy" 0 = true)
    (hpm : avail "user_pmod" 0 = true) (hu : avail "uart" 1 = true)
    (hj : avail "jtag" 0 = true) (ht : avail "target_phy" 0 = true)
    (hc : avail "control_phy" 0 = true) :
    ∃ res, elaborate (Platform.ofAvail avail) = .ok res ∧
      ("usb1_device", ("host_phy", 0)) ∈ res.bindings := by
  cases hb : avail "button_user" 0 with
  | false =>
    refine ⟨⟨["Platform does not support a user button for cpu reset"], false,
      [("usb0_device", ("target_phy", 0)), ("usb1_device", ("host_phy", 0)),
       ("usb2_device", ("control_phy", 0))]⟩, ?_, by decide⟩
    simp [elaborate, Bind.bind, Except.bind, Pure.pure, Except.pure, Platform.ofAvail,
      requestPhyWithFallback, haux, hhost, hpm, hu, hj, ht, hc, hb]
  | true =>
    refine ⟨⟨[], true,
      [("usb0_device", ("target_phy", 0)), ("usb1_device", ("host_phy", 0)),
       ("usb2_device", ("control_phy", 0))]⟩, ?_, by decide⟩
    simp [elaborate, Bind.bind, Except.bind, Pure.pure, Except.pure, Platform.ofAvail,
      requestPhyWithFallback, haux, hhost, hpm, hu, hj, ht, hc, hb]

/-- Witness for C4 on a platform that lacks exactly aux_phy. -/
theorem c4_usb1_binds_host_phy_witness :
    ∃ res, elaborate (Platform.ofAvail fun n _ => !(n == "aux_phy")) = .ok res ∧
      ("usb1_device", ("host_phy", 0)) ∈ res.bindings :=
  c4_usb1_binds_host_phy (fun n _ => !(n == "aux_phy"))
    rfl rfl rfl rfl rfl rfl rfl

/-- C6: artifact generation is deterministic: the content each artifact
path holds after the emission phase is a function of the design
descriptor (and platform name) alone — two runs from any two prior file
system states leave byte-identical content at every artifact path. -/
theorem c6_generation_deterministic {Desc : Type} (g : Generators Desc)
    (d : Desc) (platformName : String) (fs fs2 : FS) (path : String)
    (hp : path ∈ artifactPaths) :
    artifactPhase g d platformName fs path =
      artifactPhase g d platformName fs2 path := by
  simp only [artifactPaths, List.mem_cons, List.not_mem_nil, or_false] at hp
  rcases hp with rfl | rfl | rfl | rfl <;> rfl

/-- Witness for C6 at a unit descriptor and two distinct prior file
systems. -/
theorem c6_generation_deterministic_witness :
    artifactPhase (⟨fun _ _ => "h", fun _ => "l", fun _ => "s", fun _ => "m"⟩ :
        Generators Unit) () "plat" (fun _ => none) "build/genc/resources.h" =
      artifactPhase (⟨fun _ _ => "h", fun _ => "l", fun _ => "s", fun _ => "m"⟩ :
        Generators Unit) () "plat" (fun _ => some "stale") "build/genc/resources.h" :=
  c6_generation_deterministic
    (⟨fun _ _ => "h", fun _ => "l", fun _ => "s", fun _ => "m"⟩ : Generators Unit)
    () "plat" (fun _ => none) (fun _ => some "stale") "build/genc/resources.h"
    (by decide)

/-- C7: a successful run writes exactly the four artifact files, in
order, each exactly once; no artifact write precedes the synthesis step;
synthesis runs exactly once; and each artifact output directory is
created exactly when it is absent at process start. -/
theorem c7_main_writes_exactly_four (pn : String) (ex : String → Bool) :
    artifactWrites (mainTrace (some pn) ex) =
      ["build/genc/resources.h", "build/genc/soc.ld",
       "build/gensvd/lunasoc.svd", "build/genrust/memory.x"] ∧
    noWriteBeforeSynth (mainTrace (some pn) ex) = true ∧
    (mainTrace (some pn) ex).count Effect.synthesize = 1 ∧
    (∀ d ∈ artifactDirs,
      (Effect.mkdir d ∈ mainTrace (some pn) ex ↔ ex d = false)) := by
  cases h1 : ex "build/lambdasoc.soc.cpu/bios/3rdparty/litex" <;>
    cases h2 : ex "build/genc" <;> cases h3 : ex "build/gensvd" <;>
    cases h4 : ex "build/genrust" <;>
    refine ⟨?_, ?_, ?_, ?_⟩ <;>
    simp [mainTrace, thirdpartyDir, artifactDirs, artifactWrites,
      h1, h2, h3, h4] <;>
    rfl

/-- Witness for C7 on a fresh file system. -/
theorem c7_main_writes_exactly_four_witness :
    artifactWrites (mainTrace (some "cynthion") (fun _ => false)) =
      ["build/genc/resources.h", "build/genc/soc.ld",
       "build/gensvd/lunasoc.svd", "build/genrust/memory.x"] ∧
    (Effect.mkdir "build/genc" ∈ mainTrace (some "cynthion") (fun _ => false) ↔
      (fun _ => false : String → Bool) "build/genc" = false) :=
  ⟨(c7_main_writes_exactly_four "cynthion" (fun _ => false)).1,
   (c7_main_writes_exactly_four "cynthion" (fun _ => false)).2.2.2
     "build/genc" (by decide)⟩

/-- C8: with no supported platform detected, the run logs an error and
exits with the non-zero status 1; with a platform detected, the run
never exits early and ends by printing the completion message. -/
theorem c8_exit_behavior (pn : String) (ex : String → Bool) :
    mainTrace none ex =
      [Effect.logError "Failed to identify a supported platform",
       Effect.exitCode 1] ∧
    (∀ c, Effect.exitCode c ∈ mainTrace none ex → c ≠ 0) ∧
    (mainTrace (some pn) ex).getLast? = some (Effect.printMsg
      "Build completed. Use 'make load' to load bitstream to device.") ∧
    (∀ c, Effect.exitCode c ∉ mainTrace (some pn) ex) := by
  refine ⟨rfl, ?_, ?_, ?_⟩
  · intro c hc
    simp [mainTrace] at hc
    omega
  · cases h1 : ex "build/lambdasoc.soc.cpu/bios/3rdparty/litex" <;>
      cases h2 : ex "build/genc" <;> cases h3 : ex "build/gensvd" <;>
      cases h4 : ex "build/genrust" <;>
      simp [mainTrace, thirdpartyDir, h1, h2, h3, h4]
  · intro c
    cases h1 : ex "build/lambdasoc.soc.cpu/bios/3rdparty/litex" <;>
      cases h2 : ex "build/genc" <;> cases h3 : ex "build/gensvd" <;>
      cases h4 : ex "build/genrust" <;>
      simp [mainTrace, thirdpartyDir, h1, h2, h3, h4]

/-- Witness for C8: the no-platform trace and, on a platform run, the
absence of any exit and the final completion message. -/
theorem c8_exit_behavior_witness :
    (∀ c, Effect.exitCode c ∈ mainTrace none (fun _ => true) → c ≠ 0) ∧
    Effect.exitCode 0 ∉ mainTrace (some "cynthion") (fun _ => true) :=
  ⟨(c8_exit_behavior "cynthion" (fun _ => true)).2.1,
   (c8_exit_behavior "cynthion" (fun _ => true)).2.2.2 0⟩

/-- C10: whenever the litex third-party directory is absent at process
start, the run creates it, and does so before the bios build is invoked;
when it is present, no such directory creation occurs. -/
theorem c10_litex_dir_before_bios (pn : String) (ex : String → Bool) :
    (ex thirdpartyDir = false →
      Effect.mkdir thirdpartyDir ∈
        (mainTrace (some pn) ex).takeWhile (fun e => e != Effect.buildBios)) ∧
    (ex thirdpartyDir = true →
      Effect.mkdir thirdpartyDir ∉ mainTrace (some pn) ex) := by
  constructor <;> intro h <;> simp only [thirdpartyDir] at h <;>
    cases h2 : ex "build/genc" <;> cases h3 : ex "build/gensvd" <;>
    cases h4 : ex "build/genrust" <;>
    simp [mainTrace, thirdpartyDir, h, h2, h3, h4] <;>
    exact List.Mem.tail _ (List.Mem.tail _ (List.Mem.head _))

/-- Witness for C10 on a fresh file system and on one where the litex
directory already exists. -/
theorem c10_litex_dir_before_bios_witness :
    Effect.mkdir thirdpartyDir ∈
      (mainTrace (some "cynthion") (fun _ => false)).takeWhile
        (fun e => e != Effect.buildBios) ∧
    Effect.mkdir thirdpartyDir ∉ mainTrace (some "cynthion") (fun _ => true) :=
  ⟨(c10_litex_dir_before_bios "cynthion" (fun _ => false)).1 rfl,
   (c10_litex_dir_before_bios "cynthion" (fun _ => true)).2 rfl⟩

end Moondancer
